import Mathlib

/-!
Verification of the DeepMindcheck prediction/feedback/reporting pipeline.

The Python source (api/views.py, analytics/views.py, analytics/models.py) is
shallowly embedded below: Python floats become rationals (ℚ), the draws of
`random.uniform` become explicit inputs constrained to the stated ranges, and
the Django ORM store becomes explicit lists passed in and out.
-/

namespace DMC

/-! ## String helpers

Python's `word in text_lower` is a substring test and `text.lower()` /
`text.strip()` are character-wise; we model them over the character lists of
the strings (the keywords and validation thresholds in play are ASCII, where
this agrees with Python). -/

/-- True when the first list is an initial segment of the second. -/
def charsStartWith : List Char → List Char → Bool
  | [], _ => true
  | _ :: _, [] => false
  | a :: as2, b :: bs => a == b && charsStartWith as2 bs

/-- True when `sub` appears contiguously inside the second list. -/
def charsContain (sub : List Char) : List Char → Bool
  | [] => sub.isEmpty
  | c :: rest => charsStartWith sub (c :: rest) || charsContain sub rest

/-- Python `sub in s` (substring containment). -/
def strContains (s sub : String) : Bool :=
  charsContain sub.toList s.toList

/-- Python `text.lower()`, character by character. -/
def strToLower (s : String) : String :=
  String.mk (s.data.map Char.toLower)

/-- Python `text.strip()`: whitespace removed from both ends. -/
def strTrim (s : String) : String :=
  String.mk (((s.data.dropWhile Char.isWhitespace).reverse.dropWhile
    Char.isWhitespace).reverse)

/-! ## Classifier (api/views.py, `generate_demo_prediction` and
`generate_probabilities`) -/

/-- Keywords for the depression category (api/views.py line 103). -/
def depression_keywords : List String :=
  ["sad", "depressed", "hopeless", "worthless", "tired", "empty", "lonely", "useless"]

/-- Keywords for the anxiety category (api/views.py line 104). -/
def anxiety_keywords : List String :=
  ["anxious", "worried", "nervous", "panic", "stress", "overwhelmed", "scared", "fear"]

/-- Keywords for the neutral category (api/views.py line 105). -/
def neutral_keywords : List String :=
  ["happy", "good", "great", "excited", "positive", "love", "joy", "wonderful"]

/-- Embedding of `sum(1 for word in keywords if word in text_lower)`
(api/views.py 108-110). -/
def keyword_score (keywords : List String) (text_lower : String) : ℕ :=
  keywords.countP (fun w => strContains text_lower w)

/-- Insertion order of the keys of the dict
`probs = \x7b'neutral': 0.33, 'depression': 0.33, 'anxiety': 0.33\x7d`
(api/views.py 138). -/
def probKeys : List String := ["neutral", "depression", "anxiety"]

/-- Dict update `probs[k] = v` as a function update. -/
def updateProb (m : String → ℚ) (k : String) (v : ℚ) : String → ℚ :=
  fun q => if q = k then v else m q

/-- Embedding of the loop `for i, other in enumerate(other_classes)` of
api/views.py 144-150: every class but the last takes the next random draw and
reduces `remaining`; the last class absorbs what is left. The draws are
passed as a list. -/
def probLoop : (String → ℚ) → ℚ → List ℚ → List String → (String → ℚ)
  | probs, _, _, [] => probs
  | probs, remaining, _, [last] => updateProb probs last remaining
  | probs, remaining, draws, k :: k2 :: rest =>
      probLoop (updateProb probs k (draws.headD 0)) (remaining - draws.headD 0)
        draws.tail (k2 :: rest)

/-- Embedding of `generate_probabilities` (api/views.py 135-152). The dict's
keys are exactly `probKeys` and it is read only at those keys, so it is
modelled as a function `String → ℚ` initialised to the literal 0.33. Each
entry of `draws` stands for one `random.uniform(0.05, remaining - 0.05)`
call. -/
def generate_probabilities (prediction : String) (confidence : ℚ) (draws : List ℚ) :
    String → ℚ :=
  let probs := updateProb (fun _ => 33/100) prediction confidence
  let remaining := 1 - confidence
  let other_classes := probKeys.filter (fun k => k != prediction)
  probLoop probs remaining draws other_classes

/-- Embedding of api/views.py 100-125: the keyword scores and the if/elif
chain choosing `(prediction, base_confidence)`. -/
def demoBase (text : String) : String × ℚ :=
  let text_lower := strToLower text
  let depression_score := keyword_score depression_keywords text_lower
  let anxiety_score := keyword_score anxiety_keywords text_lower
  let neutral_score := keyword_score neutral_keywords text_lower
  if depression_score > anxiety_score ∧ depression_score > neutral_score then
    ("depression", 7/10 + (depression_score : ℚ) * (5/100))
  else if anxiety_score > depression_score ∧ anxiety_score > neutral_score then
    ("anxiety", 7/10 + (anxiety_score : ℚ) * (5/100))
  else if 0 < neutral_score then
    ("neutral", 6/10 + (neutral_score : ℚ) * (5/100))
  else
    ("neutral", 1/2)

/-- Embedding of `generate_demo_prediction` (api/views.py 97-133). `r` is the
draw of `random.uniform(-0.1, 0.1)` on line 128 and `s` the draw of
`random.uniform(0.05, remaining - 0.05)` inside `generate_probabilities`.
Returns `(prediction, confidence, probabilities)`. -/
def generate_demo_prediction (text : String) (r s : ℚ) :
    String × ℚ × (String → ℚ) :=
  let confidence := min (95/100) (max (3/10) ((demoBase text).2 + r))
  ((demoBase text).1, confidence, generate_probabilities (demoBase text).1 confidence [s])

/-! ## Derived outputs (api/views.py 154-223) -/

/-- The nested dict `messages` of `generate_message` (api/views.py 157-173),
as an association list keyed by prediction, then by confidence tier. -/
def messages : List (String × List (String × String)) :=
  [("neutral",
    [("high", "Your text suggests a balanced and positive mental state. Keep maintaining good mental health practices!"),
     ("medium", "Your text appears mostly neutral. Continue focusing on your well-being."),
     ("low", "The analysis suggests a generally stable state, though some patterns are unclear.")]),
   ("depression",
    [("high", "Your text shows patterns that may indicate depressive thoughts. Please consider reaching out to a mental health professional or trusted person."),
     ("medium", "Some concerning patterns detected in your text. It might be helpful to talk to someone you trust."),
     ("low", "Your text contains some indicators that warrant attention. Consider monitoring your mental health.")]),
   ("anxiety",
    [("high", "Your text suggests elevated stress or anxiety levels. Relaxation techniques and professional support may be beneficial."),
     ("medium", "Some stress or anxiety indicators detected. Consider practicing stress management techniques."),
     ("low", "Mild stress patterns observed. Regular self-care practices may be helpful.")])]

/-- Embedding of `generate_message` (api/views.py 154-176). The double dict
access `messages[prediction][level]` raises `KeyError` on a missing key; it
is modelled as an `Option`-valued lookup, `none` standing for the raise. -/
def generate_message (prediction : String) (confidence : ℚ) : Option String :=
  let level := if confidence > 7/10 then "high"
    else if confidence > 1/2 then "medium" else "low"
  (messages.lookup prediction).bind (fun inner => inner.lookup level)

/-- The dict `recommendations` of api/views.py 181-197. -/
def recommendations : List (String × List String) :=
  [("neutral",
    ["Continue healthy lifestyle habits and regular exercise",
     "Maintain strong social connections with friends and family",
     "Practice mindfulness or meditation regularly"]),
   ("depression",
    ["Consider speaking with a mental health professional",
     "Reach out to trusted friends, family members, or support groups",
     "Maintain physical activity and spend time in natural light"]),
   ("anxiety",
    ["Practice deep breathing exercises and progressive muscle relaxation",
     "Try mindfulness meditation or grounding techniques",
     "Consider limiting caffeine intake and maintaining regular sleep"])]

/-- Embedding of `generate_recommendations` (api/views.py 178-199), the dict
access modelled as an `Option`-valued lookup. -/
def generate_recommendations (prediction : String) : Option (List String) :=
  recommendations.lookup prediction

/-- The dict `explanations` of api/views.py 204-208. -/
def explanations : List (String × String) :=
  [("depression", "The model detected language patterns and word choices commonly associated with depressive thoughts, including expressions of hopelessness, sadness, or negative self-perception."),
   ("anxiety", "The analysis identified linguistic markers typically associated with anxiety, such as expressions of worry, nervousness, or stress-related concerns."),
   ("neutral", "The language patterns in your text appear balanced and don\x27t strongly indicate specific mental health concerns, suggesting a relatively stable emotional state.")]

/-- Embedding of `generate_explanation` (api/views.py 201-223): the
`explanations[prediction]` access is the only lookup that can raise, modelled
as an `Option`; the result carries (reasoning, confidence_explanation,
disclaimer). The numeric `f"...\x7bconfidence:.1%\x7d..."` prefix of the
confidence narrative is elided; the tier chosen by the thresholds 0.8 / 0.6
is kept. -/
def generate_explanation (prediction : String) (confidence : ℚ) :
    Option (String × String × String) :=
  (explanations.lookup prediction).map (fun reasoning =>
    let confidence_explanation :=
      if confidence > 8/10 then
        "This indicates a strong pattern match with the training data."
      else if confidence > 6/10 then
        "This suggests a moderate pattern match with some uncertainty."
      else
        "This indicates lower certainty, suggesting mixed or unclear patterns."
    (reasoning, confidence_explanation,
     "This analysis is for informational purposes only and is not a substitute for professional medical advice, diagnosis, or treatment."))

/-! ## Analysis store and the two write endpoints (api/views.py 19-95 and
234-247) -/

/-- One persisted `TextAnalysis` row, restricted to the fields `analyze_text`
computes from its input (session/request metadata and timing are carried
through from the framework and not modelled). -/
structure TextAnalysisRec where
  text_input : String
  text_length : ℕ
  prediction : String
  confidence_score : ℚ
  probabilities : List (String × ℚ)
  model_used : String
deriving DecidableEq

/-- Embedding of the `analyze_text` view (api/views.py 19-95): trim, the
three validation gates (each returning HTTP 400 with no record persisted),
then `TextAnalysis.objects.create` and HTTP 200. The first component is the
HTTP status, the second the store after the call. -/
def analyze_text (raw model_choice : String) (r s : ℚ)
    (store : List TextAnalysisRec) : ℕ × List TextAnalysisRec :=
  let text := strTrim raw
  if text = "" then (400, store)
  else if text.length < 10 then (400, store)
  else if 2000 < text.length then (400, store)
  else
    let p := generate_demo_prediction text r s
    (200, store ++ [{ text_input := text,
                      text_length := text.length,
                      prediction := p.1,
                      confidence_score := p.2.1,
                      probabilities := probKeys.map (fun k => (k, p.2.2 k)),
                      model_used := model_choice }])

/-- The store as `submit_feedback` sees it: the ids of the persisted analyses
and the persisted feedback rows as (analysis_id, rating) pairs. -/
structure FeedbackStore where
  analyses : List ℕ
  feedbacks : List (ℕ × ℤ)
deriving DecidableEq

/-- Embedding of the `submit_feedback` view (api/views.py 234-247).
`TextAnalysis.objects.get(id=analysis_id)` raises `DoesNotExist` for an
unknown id; the surrounding bare `except Exception` turns any exception into
an HTTP 500 response. When the analysis exists,
`UserFeedback.objects.create(analysis=analysis, rating=rating)` inserts the
row as given: Django does not enforce the `choices` of the rating field
(analytics/models.py 41-44) on `create`, so the rating is persisted
unvalidated. Returns (HTTP status, store after the call). -/
def submit_feedback (analysis_id : ℕ) (rating : ℤ) (store : FeedbackStore) :
    ℕ × FeedbackStore :=
  if analysis_id ∈ store.analyses then
    (201, { store with feedbacks := store.feedbacks ++ [(analysis_id, rating)] })
  else
    (500, store)

/-! ## Reporting engine (analytics/views.py, `reports_view`, 81-158) -/

/-- Python `round(x, 2)` over ℚ (Python rounds floats half-to-even; away from
exact halves, which never arise in the claims below, both equal the nearest
multiple of 1/100). -/
def round2 (x : ℚ) : ℚ :=
  ((round (x * 100) : ℤ) : ℚ) / 100

/-- Embedding of analytics/views.py 86:
`round((total_feedback / total_analyses) * 100, 2) if total_analyses else 0`. -/
def feedback_rate (total_analyses total_feedback : ℕ) : ℚ :=
  if total_analyses ≠ 0 then
    round2 ((total_feedback : ℚ) / (total_analyses : ℚ) * 100)
  else 0

/-- Embedding of analytics/views.py 87: the `Avg("rating")` aggregate is
`None` on an empty table and `or 0` turns that into 0. -/
def avg_rating (ratings : List ℤ) : ℚ :=
  if ratings ≠ [] then (ratings.sum : ℚ) / (ratings.length : ℚ) else 0

/-- Embedding of the star loop of analytics/views.py 100-108: for each star
5 down to 1, the count of feedback rows with that rating and its percentage
of all feedback (0 when there is no feedback). -/
def star_stats (ratings : List ℤ) : List (ℤ × ℕ × ℚ) :=
  let total_feedback := ratings.length
  ([5, 4, 3, 2, 1] : List ℤ).map (fun star =>
    let count := ratings.countP (fun x => x == star)
    (star, count,
      if total_feedback ≠ 0 then
        round2 ((count : ℚ) / (total_feedback : ℚ) * 100)
      else 0))

/-- Embedding of the 30-day activity series of analytics/views.py 123-141.
Dates are day numbers (ℤ); `days` lists the creation day of every stored
analysis. The queryset filters to days ≥ `today - 29` and groups by day; the
loop then emits, for each of the 30 days of the window, the matching group's
count or 0. Entries are (date, count) pairs, pairing the parallel `labels`
and `data` lists of the source. -/
def recent_activity (today : ℤ) (days : List ℤ) : List (ℤ × ℕ) :=
  let last_30 := today - 29
  let activity := days.filter (fun d => decide (last_30 ≤ d))
  (List.range 30).map (fun (i : ℕ) =>
    (last_30 + (i : ℤ), activity.countP (fun d => d == last_30 + (i : ℤ))))

/-- The example text of the spec (§8). -/
def sampleText : String := "I feel so anxious and overwhelmed about everything"

end DMC

namespace DMC

/-! ## Helper lemmas about the probability distribution -/

/-- Evaluation of `generate_probabilities` for the neutral winner: the two
other classes, in dict order, take the draw and the leftover. -/
lemma gp_neutral (c s : ℚ) : generate_probabilities "neutral" c [s] =
    updateProb (updateProb (updateProb (fun _ => 33/100) "neutral" c) "depression" s)
      "anxiety" (1 - c - s) := rfl

/-- Evaluation of `generate_probabilities` for the depression winner. -/
lemma gp_depression (c s : ℚ) : generate_probabilities "depression" c [s] =
    updateProb (updateProb (updateProb (fun _ => 33/100) "depression" c) "neutral" s)
      "anxiety" (1 - c - s) := rfl

/-- Evaluation of `generate_probabilities` for the anxiety winner. -/
lemma gp_anxiety (c s : ℚ) : generate_probabilities "anxiety" c [s] =
    updateProb (updateProb (updateProb (fun _ => 33/100) "anxiety" c) "neutral" s)
      "depression" (1 - c - s) := rfl

/-- The generated distribution sums to 1 exactly, whatever the draw. -/
lemma gp_sum (pred : String) (hpred : pred ∈ probKeys) (c s : ℚ) :
    (probKeys.map (generate_probabilities pred c [s])).sum = 1 := by
  simp only [probKeys, List.mem_cons, List.not_mem_nil, or_false] at hpred
  rcases hpred with h | h | h <;> subst h <;>
    simp [probKeys, gp_neutral, gp_depression, gp_anxiety, updateProb] <;> ring

/-- Every value of the generated distribution is the confidence, the draw, or
the leftover `1 - confidence - draw`. -/
lemma gp_values (pred : String) (hpred : pred ∈ probKeys) (c s : ℚ) :
    ∀ k ∈ probKeys, generate_probabilities pred c [s] k = c ∨
      generate_probabilities pred c [s] k = s ∨
      generate_probabilities pred c [s] k = 1 - c - s := by
  simp only [probKeys, List.mem_cons, List.not_mem_nil, or_false] at hpred
  rcases hpred with h | h | h <;> subst h <;> intro k hk <;>
    simp only [probKeys, List.mem_cons, List.not_mem_nil, or_false] at hk <;>
    rcases hk with h | h | h <;> subst h <;>
    simp [gp_neutral, gp_depression, gp_anxiety, updateProb]

/-- The winning label keeps exactly the confidence value. -/
lemma gp_apply_self (pred : String) (hpred : pred ∈ probKeys) (c s : ℚ) :
    generate_probabilities pred c [s] pred = c := by
  simp only [probKeys, List.mem_cons, List.not_mem_nil, or_false] at hpred
  rcases hpred with h | h | h <;> subst h <;>
    simp [gp_neutral, gp_depression, gp_anxiety, updateProb]

/-! ## Helper lemmas about the demo prediction -/

/-- The predicted label is always one of the three fixed categories. -/
lemma pred_mem (text : String) (r s : ℚ) :
    (generate_demo_prediction text r s).1 ∈
      (["depression", "anxiety", "neutral"] : List String) := by
  show (demoBase text).1 ∈ _
  simp only [demoBase]
  split_ifs <;> simp

/-- The clamp `min(0.95, max(0.3, ...))` bounds the confidence below. -/
lemma conf_lb (text : String) (r s : ℚ) :
    3/10 ≤ (generate_demo_prediction text r s).2.1 := by
  show (3 : ℚ)/10 ≤ min (95/100) (max (3/10) ((demoBase text).2 + r))
  exact le_min (by norm_num) (le_max_left _ _)

/-- The clamp `min(0.95, max(0.3, ...))` bounds the confidence above. -/
lemma conf_ub (text : String) (r s : ℚ) :
    (generate_demo_prediction text r s).2.1 ≤ 95/100 := by
  show min (95/100 : ℚ) (max (3/10) ((demoBase text).2 + r)) ≤ 95/100
  exact min_le_left _ _

/-- On the sample text the keyword scores are 0 / 2 / 0 (anxious and
overwhelmed match), so the anxiety branch fires with base 0.7 + 2·0.05. -/
lemma demoBase_sample : demoBase sampleText = ("anxiety", 8/10) := by
  have h1 : keyword_score depression_keywords (strToLower sampleText) = 0 := by decide
  have h2 : keyword_score anxiety_keywords (strToLower sampleText) = 2 := by decide
  have h3 : keyword_score neutral_keywords (strToLower sampleText) = 0 := by decide
  simp only [demoBase, h1, h2, h3]
  norm_num

/-- Full evaluation of the classifier on the sample text, the two random
draws left symbolic. -/
lemma gdp_sample (r s : ℚ) : generate_demo_prediction sampleText r s =
    ("anxiety", min (95/100) (max (3/10) (8/10 + r)),
     generate_probabilities "anxiety" (min (95/100) (max (3/10) (8/10 + r))) [s]) := by
  simp only [generate_demo_prediction, demoBase_sample]

/-- The message table has an entry for every reachable label and tier. -/
lemma generate_message_isSome (pred : String)
    (h : pred ∈ (["depression", "anxiety", "neutral"] : List String)) (c : ℚ) :
    (generate_message pred c).isSome = true := by
  simp only [List.mem_cons, List.not_mem_nil, or_false] at h
  rcases h with h | h | h <;> subst h <;>
    simp only [generate_message] <;> split_ifs <;> decide

/-- The recommendation table has an entry for every reachable label. -/
lemma generate_recommendations_isSome (pred : String)
    (h : pred ∈ (["depression", "anxiety", "neutral"] : List String)) :
    (generate_recommendations pred).isSome = true := by
  simp only [List.mem_cons, List.not_mem_nil, or_false] at h
  rcases h with h | h | h <;> subst h <;> decide

/-- The explanation table has an entry for every reachable label. -/
lemma generate_explanation_isSome (pred : String)
    (h : pred ∈ (["depression", "anxiety", "neutral"] : List String)) (c : ℚ) :
    (generate_explanation pred c).isSome = true := by
  simp only [List.mem_cons, List.not_mem_nil, or_false] at h
  rcases h with h | h | h <;> subst h <;>
    simp only [generate_explanation] <;> split_ifs <;> decide

end DMC

namespace DMC

/-! ## The claims -/

/-- C1: for every classifier output (label among the three categories,
confidence in the returnable range [0.3, 0.95]) and every partition draw in
the stated range of `random.uniform(0.05, remaining - 0.05)` (the bounds
taken either way around, as Python does when they are inverted), the
distribution `generate_probabilities` returns is non-negative on every
category, sums to 1 exactly, and gives the winning label exactly the
confidence. -/
theorem claim_C1 (pred : String) (c s : ℚ) (hpred : pred ∈ probKeys)
    (hc1 : 3/10 ≤ c) (hc2 : c ≤ 95/100)
    (hs1 : min (5/100) (1 - c - 5/100) ≤ s)
    (hs2 : s ≤ max (5/100) (1 - c - 5/100)) :
    (∀ k ∈ probKeys, 0 ≤ generate_probabilities pred c [s] k) ∧
    (probKeys.map (generate_probabilities pred c [s])).sum = 1 ∧
    generate_probabilities pred c [s] pred = c := by
  refine ⟨?_, gp_sum pred hpred c s, gp_apply_self pred hpred c s⟩
  have hs0 : (0 : ℚ) ≤ s := le_trans (le_min (by norm_num) (by linarith)) hs1
  have hsr : s ≤ 1 - c := le_trans hs2 (max_le (by linarith) (by linarith))
  intro k hk
  rcases gp_values pred hpred c s k hk with h | h | h <;> rw [h] <;> linarith

/-- Witness for C1 at prediction `depression`, confidence 1/2, draw 1/10. -/
theorem claim_C1_witness :
    ((("depression" : String) ∈ probKeys) ∧ (3/10 : ℚ) ≤ 1/2 ∧ (1/2 : ℚ) ≤ 95/100 ∧
      min (5/100 : ℚ) (1 - 1/2 - 5/100) ≤ 1/10 ∧
      (1/10 : ℚ) ≤ max (5/100) (1 - 1/2 - 5/100)) ∧
    ((∀ k ∈ probKeys, 0 ≤ generate_probabilities "depression" (1/2) [1/10] k) ∧
      (probKeys.map (generate_probabilities "depression" (1/2) [1/10])).sum = 1 ∧
      generate_probabilities "depression" (1/2) [1/10] "depression" = 1/2) :=
  ⟨⟨by decide, by norm_num, by norm_num, by norm_num [min_def], by norm_num [max_def]⟩,
   claim_C1 "depression" (1/2) (1/10) (by decide) (by norm_num) (by norm_num)
     (by norm_num [min_def]) (by norm_num [max_def])⟩

/-- C2: every request whose text is empty, shorter than 10 characters or
longer than 2000 characters after trimming gets a 400 response from
`analyze_text` and the store is unchanged (no Analysis record persisted). -/
theorem claim_C2 (raw model : String) (r s : ℚ) (store : List TextAnalysisRec)
    (h : strTrim raw = "" ∨ (strTrim raw).length < 10 ∨ 2000 < (strTrim raw).length) :
    (analyze_text raw model r s store).1 = 400 ∧
    (analyze_text raw model r s store).2 = store := by
  simp only [analyze_text]
  split_ifs with h1 h2 h3
  · exact ⟨rfl, rfl⟩
  · exact ⟨rfl, rfl⟩
  · exact ⟨rfl, rfl⟩
  · exfalso
    rcases h with h | h | h
    exacts [h1 h, h2 h, h3 h]

/-- Witness for C2 at the spec's example input `"hi"` (2 characters). -/
theorem claim_C2_witness :
    (strTrim "hi" = "" ∨ (strTrim "hi").length < 10 ∨ 2000 < (strTrim "hi").length) ∧
    ((analyze_text "hi" "baseline" 0 0 []).1 = 400 ∧
      (analyze_text "hi" "baseline" 0 0 []).2 = []) :=
  ⟨by decide, claim_C2 "hi" "baseline" 0 0 [] (by decide)⟩

/-- C3 (amended): a feedback submission whose analysis_id resolves to no
existing Analysis record creates no Feedback record and leaves the store
unchanged, but the failure is surfaced with HTTP status 500 (the view's bare
`except Exception` handler), not a 4xx status. -/
theorem claim_C3_amended (analysis_id : ℕ) (rating : ℤ) (store : FeedbackStore)
    (h : analysis_id ∉ store.analyses) :
    (submit_feedback analysis_id rating store).1 = 500 ∧
    (submit_feedback analysis_id rating store).2 = store := by
  simp only [submit_feedback]
  rw [if_neg h]
  exact ⟨rfl, rfl⟩

/-- Counterexample to C3 as stated: feedback for analysis id 1 against an
empty store is answered with status 500, which is not a 4xx status; no
record is created. -/
theorem claim_C3_counterexample :
    (submit_feedback 1 5 ⟨[], []⟩).1 = 500 ∧
    ¬(400 ≤ (submit_feedback 1 5 ⟨[], []⟩).1 ∧ (submit_feedback 1 5 ⟨[], []⟩).1 < 500) ∧
    (submit_feedback 1 5 ⟨[], []⟩).2 = ⟨[], []⟩ := by decide

/-- Witness for the amended C3: id 2 is absent from a store holding only
analysis 1. -/
theorem claim_C3_witness :
    ((2 : ℕ) ∉ (FeedbackStore.mk [1] []).analyses) ∧
    ((submit_feedback 2 4 ⟨[1], []⟩).1 = 500 ∧
      (submit_feedback 2 4 ⟨[1], []⟩).2 = ⟨[1], []⟩) :=
  ⟨by decide, claim_C3_amended 2 4 ⟨[1], []⟩ (by decide)⟩

/-- C4: for every text of valid length and every perturbation in the stated
range of `random.uniform(-0.1, 0.1)`, the classifier returns a label in the
fixed category set and a confidence in [0.3, 0.95]. -/
theorem claim_C4 (text : String) (r s : ℚ)
    (hlen1 : 10 ≤ text.length) (hlen2 : text.length ≤ 2000)
    (hr1 : -(1/10) ≤ r) (hr2 : r ≤ 1/10) :
    (generate_demo_prediction text r s).1 ∈
      (["depression", "anxiety", "neutral"] : List String) ∧
    3/10 ≤ (generate_demo_prediction text r s).2.1 ∧
    (generate_demo_prediction text r s).2.1 ≤ 95/100 :=
  ⟨pred_mem text r s, conf_lb text r s, conf_ub text r s⟩

/-- Witness for C4 at a 17-character text and zero perturbation. -/
theorem claim_C4_witness :
    (10 ≤ ("hello world today" : String).length ∧
      ("hello world today" : String).length ≤ 2000 ∧
      -(1/10 : ℚ) ≤ 0 ∧ (0 : ℚ) ≤ 1/10) ∧
    ((generate_demo_prediction "hello world today" 0 0).1 ∈
      (["depression", "anxiety", "neutral"] : List String) ∧
      3/10 ≤ (generate_demo_prediction "hello world today" 0 0).2.1 ∧
      (generate_demo_prediction "hello world today" 0 0).2.1 ≤ 95/100) :=
  ⟨⟨by decide, by decide, by norm_num, by norm_num⟩,
   claim_C4 "hello world today" 0 0 (by decide) (by decide) (by norm_num) (by norm_num)⟩

/-- C5: whenever no single category has a strictly highest keyword score
(ties between the leaders, or all scores zero), the predicted label is the
neutral category. -/
theorem claim_C5 (text : String) (r s : ℚ)
    (h1 : ¬(keyword_score depression_keywords (strToLower text) >
            keyword_score anxiety_keywords (strToLower text) ∧
          keyword_score depression_keywords (strToLower text) >
            keyword_score neutral_keywords (strToLower text)))
    (h2 : ¬(keyword_score anxiety_keywords (strToLower text) >
            keyword_score depression_keywords (strToLower text) ∧
          keyword_score anxiety_keywords (strToLower text) >
            keyword_score neutral_keywords (strToLower text)))
    (h3 : ¬(keyword_score neutral_keywords (strToLower text) >
            keyword_score depression_keywords (strToLower text) ∧
          keyword_score neutral_keywords (strToLower text) >
            keyword_score anxiety_keywords (strToLower text))) :
    (generate_demo_prediction text r s).1 = "neutral" := by
  show (demoBase text).1 = "neutral"
  simp only [demoBase]
  rw [if_neg h1, if_neg h2]
  split_ifs <;> rfl

/-- Witness for C5 at a text with a 1-1-0 tie between depression (sad) and
anxiety (anxious). -/
theorem claim_C5_witness :
    (¬(keyword_score depression_keywords (strToLower "sad and anxious today ok") >
        keyword_score anxiety_keywords (strToLower "sad and anxious today ok") ∧
       keyword_score depression_keywords (strToLower "sad and anxious today ok") >
        keyword_score neutral_keywords (strToLower "sad and anxious today ok")) ∧
     ¬(keyword_score anxiety_keywords (strToLower "sad and anxious today ok") >
        keyword_score depression_keywords (strToLower "sad and anxious today ok") ∧
       keyword_score anxiety_keywords (strToLower "sad and anxious today ok") >
        keyword_score neutral_keywords (strToLower "sad and anxious today ok")) ∧
     ¬(keyword_score neutral_keywords (strToLower "sad and anxious today ok") >
        keyword_score depression_keywords (strToLower "sad and anxious today ok") ∧
       keyword_score neutral_keywords (strToLower "sad and anxious today ok") >
        keyword_score anxiety_keywords (strToLower "sad and anxious today ok"))) ∧
    (generate_demo_prediction "sad and anxious today ok" 0 0).1 = "neutral" :=
  ⟨⟨by decide, by decide, by decide⟩,
   claim_C5 "sad and anxious today ok" 0 0 (by decide) (by decide) (by decide)⟩

end DMC

namespace DMC

/-- C6: the reported feedback rate is `(total_feedback / total_analyses) *
100` rounded to 2 decimals, and 0 whenever there are no analyses, whatever
the feedback count; on the spec's example store (10 analyses, 4 feedback
rated 5, 5, 4, 3) it is 40.0, the average rating is 4.25, and the star-5
entry of the star statistics has count 2 and percentage 50.0. -/
theorem claim_C6 :
    (∀ ta tf : ℕ, ta ≠ 0 → feedback_rate ta tf = round2 ((tf : ℚ) / (ta : ℚ) * 100)) ∧
    (∀ tf : ℕ, feedback_rate 0 tf = 0) ∧
    feedback_rate 10 4 = 40 ∧
    avg_rating [5, 5, 4, 3] = 17/4 ∧
    (star_stats [5, 5, 4, 3]).headD (0, 0, 0) = (5, 2, 50) := by
  have hc5 : List.countP (fun x => x == (5 : ℤ)) [5, 5, 4, 3] = 2 := by decide
  refine ⟨fun ta tf h => by simp [feedback_rate, h], fun tf => by simp [feedback_rate],
    ?_, ?_, ?_⟩
  · norm_num [feedback_rate, round2, round_eq]
  · rw [avg_rating, if_pos (by simp)]
    norm_num
  · simp only [star_stats, List.map_cons, List.headD_cons, hc5]
    norm_num [round2, round_eq]

/-- Index evaluation of the 30-day series: entry `i` carries date
`today - 29 + i` and the count of stored analyses on that day. -/
lemma recent_activity_getD (today : ℤ) (days : List ℤ) (i : ℕ) (hi : i < 30) :
    (recent_activity today days).getD i (0, 0) =
      (today - 29 + (i : ℤ),
       (days.filter (fun d => decide (today - 29 ≤ d))).countP
         (fun d => d == today - 29 + (i : ℤ))) := by
  have hlen : i < (recent_activity today days).length := by
    simp only [recent_activity, List.length_map, List.length_range]
    exact hi
  rw [List.getD_eq_getElem _ _ hlen]
  simp only [recent_activity, List.getElem_map, List.getElem_range]

/-- C7: for every store state and every current date, the 30-day activity
series has exactly 30 entries, consecutive dates each one day after the
previous, last entry dated today, and every day of the window appears with
its analysis count, count 0 included (the series is dense). -/
theorem claim_C7 (today : ℤ) (days : List ℤ) :
    (recent_activity today days).length = 30 ∧
    (∀ i : ℕ, i < 29 →
      ((recent_activity today days).getD (i + 1) (0, 0)).1 =
        ((recent_activity today days).getD i (0, 0)).1 + 1) ∧
    ((recent_activity today days).getD 29 (0, 0)).1 = today ∧
    (∀ d : ℤ, today - 29 ≤ d → d ≤ today →
      (d, days.countP (fun x => x == d)) ∈ recent_activity today days) := by
  refine ⟨by simp only [recent_activity, List.length_map, List.length_range], ?_, ?_, ?_⟩
  · intro i hi
    rw [recent_activity_getD today days (i + 1) (by omega),
      recent_activity_getD today days i (by omega)]
    push_cast
    ring
  · rw [recent_activity_getD today days 29 (by omega)]
    norm_num
  · intro d hd1 hd2
    have hi : (d - (today - 29)).toNat < 30 := by omega
    have hdi : today - 29 + ((d - (today - 29)).toNat : ℤ) = d := by omega
    have hcount : (days.filter (fun x => decide (today - 29 ≤ x))).countP
        (fun x => x == d) = days.countP (fun x => x == d) := by
      rw [List.countP_filter]
      apply List.countP_congr
      intro a _
      simp only [Bool.and_eq_true, decide_eq_true_eq, beq_iff_eq]
      constructor
      · rintro ⟨h, _⟩
        exact h
      · rintro rfl
        exact ⟨rfl, hd1⟩
    simp only [recent_activity]
    refine List.mem_map.mpr ⟨(d - (today - 29)).toNat, List.mem_range.mpr hi, ?_⟩
    rw [hdi, hcount]

/-- C8 is a code bug: the view persists an out-of-range rating. With analysis
1 in the store, submitting rating 7 succeeds (status 201) and a Feedback row
with rating 7 — outside the declared set \x7b1, 2, 3, 4, 5\x7d — is created,
instead of the ValidationError the spec requires. -/
theorem claim_C8_code_bug :
    (submit_feedback 1 7 ⟨[1], []⟩).1 = 201 ∧
    (submit_feedback 1 7 ⟨[1], []⟩).2.feedbacks = [(1, 7)] ∧
    (7 : ℤ) ∉ ([1, 2, 3, 4, 5] : List ℤ) := by decide

/-- C9 (amended): on the spec's example text the classifier always answers
`anxiety` and the probabilities sum to 1, and the confidence is at least 0.7
— not strictly above 0.7, since the perturbation draw -0.1 is in the stated
range of `random.uniform(-0.1, 0.1)` and yields exactly 0.7. -/
theorem claim_C9_amended (r s : ℚ) (hr1 : -(1/10) ≤ r) (hr2 : r ≤ 1/10) :
    (generate_demo_prediction sampleText r s).1 = "anxiety" ∧
    7/10 ≤ (generate_demo_prediction sampleText r s).2.1 ∧
    (probKeys.map (generate_demo_prediction sampleText r s).2.2).sum = 1 := by
  rw [gdp_sample]
  refine ⟨rfl, ?_, ?_⟩
  · exact le_min (by norm_num) (le_trans (by linarith) (le_max_right _ _))
  · exact gp_sum "anxiety" (by decide) _ s

/-- Witness for the amended C9 at zero perturbation. -/
theorem claim_C9_amended_witness :
    (-(1/10 : ℚ) ≤ 0 ∧ (0 : ℚ) ≤ 1/10) ∧
    ((generate_demo_prediction sampleText 0 0).1 = "anxiety" ∧
      7/10 ≤ (generate_demo_prediction sampleText 0 0).2.1 ∧
      (probKeys.map (generate_demo_prediction sampleText 0 0).2.2).sum = 1) :=
  ⟨⟨by norm_num, by norm_num⟩, claim_C9_amended 0 0 (by norm_num) (by norm_num)⟩

/-- Counterexample to C9 as stated: at perturbation -0.1 (attainable, since
`random.uniform(-0.1, 0.1)` includes its bounds) the confidence is exactly
0.7, not strictly greater than 0.7. -/
theorem claim_C9_counterexample :
    (generate_demo_prediction sampleText (-(1/10)) 0).2.1 = 7/10 ∧
    ¬(7/10 < (generate_demo_prediction sampleText (-(1/10)) 0).2.1) := by
  have h : (generate_demo_prediction sampleText (-(1/10)) 0).2.1 = 7/10 := by
    rw [gdp_sample]
    norm_num [min_def, max_def]
  refine ⟨h, ?_⟩
  rw [h]
  exact lt_irrefl _

/-- C10: every prediction the classifier can output is one of `depression`,
`anxiety`, `neutral`, and for every such label and every confidence the
lookups of `generate_message`, `generate_recommendations` and
`generate_explanation` find their keys and never raise. -/
theorem claim_C10 (text : String) (r s : ℚ) :
    (generate_demo_prediction text r s).1 ∈
      (["depression", "anxiety", "neutral"] : List String) ∧
    (generate_message (generate_demo_prediction text r s).1
      (generate_demo_prediction text r s).2.1).isSome = true ∧
    (generate_recommendations (generate_demo_prediction text r s).1).isSome = true ∧
    (generate_explanation (generate_demo_prediction text r s).1
      (generate_demo_prediction text r s).2.1).isSome = true :=
  ⟨pred_mem text r s,
   generate_message_isSome _ (pred_mem text r s) _,
   generate_recommendations_isSome _ (pred_mem text r s),
   generate_explanation_isSome _ (pred_mem text r s) _⟩

end DMC
